import Mathlib

/-!
Verification of `examples/multi-interface/multi-interface.go` from the
gopcua-based multi-interface example repository.

The example delegates all OPC UA protocol work to the external library
(`opcua.NewClient`, `Client.Connect`, `Client.Read`, `ua.ParseNodeID`,
`net.Interfaces`).  Those external calls are modelled as oracle fields of
an `Env` record; the example's own logic (option-list construction,
error propagation, connection-state bookkeeping, the monitoring loop,
shutdown ordering and the interface filter) is embedded as Lean
functions translated from the Go source.
-/

namespace MultiInterface

/-- A Go `error` value, carrying its message string. -/
structure Err where
  msg : String
deriving DecidableEq, Repr

/-- `fmt.Errorf("<pre>: %v", e)`: wrap an error with a message. -/
def wrapErr (pre : String) (e : Err) : Err :=
  ⟨pre ++ ": " ++ e.msg⟩

/-- An `*opcua.Client` handle.  The client is owned by the external
library; the example only stores and passes it, so it is modelled as an
abstract identifier. -/
structure Client where
  id : Nat
deriving DecidableEq, Repr

/-- A `ua.NodeID`: the example builds numeric node ids
(`ua.NewNumericNodeID`) and obtains others from `ua.ParseNodeID`. -/
inductive NodeID where
  | numeric (ns : Nat) (idn : Nat)
  | other (s : String)
deriving DecidableEq, Repr

/-- `ua.StatusOK` (status code 0). -/
def StatusOK : Nat := 0

/-- `ua.TimestampsToReturnBoth` (value 2); the Go zero value of
`ua.TimestampsToReturn` is 0. -/
def TimestampsToReturnBoth : Nat := 2

/-- A `*ua.DataValue` as used by the example: status code, value and the
two timestamps (values and timestamps are only printed, so they are kept
abstract). -/
structure DataValue where
  status : Nat
  value : String
  serverTimestamp : Nat
  sourceTimestamp : Nat
deriving DecidableEq, Repr

/-- A `*ua.ReadRequest` as constructed by the example. -/
structure ReadRequest where
  maxAge : Nat
  nodesToRead : List NodeID
  timestampsToReturn : Nat
deriving DecidableEq, Repr

/-- A `*ua.ReadResponse`: the list of results. -/
structure ReadResponse where
  results : List DataValue
deriving DecidableEq, Repr

/-- An `opcua.Option` passed to `opcua.NewClient`.  Durations are in
seconds. -/
inductive ClientOpt where
  | securityPolicy (uri : String)
  | securityModeString (mode : String)
  | localAddr (addr : String)
  | autoReconnect (b : Bool)
  | reconnectInterval (seconds : Nat)
  | dialTimeout (seconds : Nat)
deriving DecidableEq, Repr

/-- `ua.SecurityPolicyURINone`. -/
def SecurityPolicyURINone : String :=
  "http://opcfoundation.org/UA/SecurityPolicy#None"

/-- The external library and operating system, as oracles: the outcome
of `opcua.NewClient`, `Client.Connect`, `Client.Read` and
`ua.ParseNodeID` in the current run. -/
structure Env where
  newClient : String → List ClientOpt → Except Err Client
  connect : Client → Except Err Unit
  read : Client → ReadRequest → Except Err ReadResponse
  parseNodeID : String → Except Err NodeID

/-- The option list built by `connectWithLocalAddr` (lines 70–76). -/
def connectOpts (localAddr : String) : List ClientOpt :=
  [ClientOpt.securityPolicy SecurityPolicyURINone,
   ClientOpt.securityModeString "None",
   ClientOpt.localAddr localAddr,
   ClientOpt.autoReconnect true,
   ClientOpt.reconnectInterval 5]

/-- `connectWithLocalAddr` (lines 68–91): build the option list, create
the client, connect; wrap and return errors, otherwise return the
client. -/
def connectWithLocalAddr (env : Env) (endpoint localAddr : String) :
    Except Err Client :=
  match env.newClient endpoint (connectOpts localAddr) with
  | .error e => .error (wrapErr "创建客户端失败" e)
  | .ok c =>
    match env.connect c with
    | .error e => .error (wrapErr "连接服务器失败" e)
    | .ok _ => .ok c

/-- The `ua.ReadRequest` built by `readNodeValue` (lines 102–108). -/
def readNodeValueReq (nodeID : NodeID) : ReadRequest :=
  { maxAge := 2000,
    nodesToRead := [nodeID],
    timestampsToReturn := TimestampsToReturnBoth }

/-- `readNodeValue` (lines 94–130): parse the node id, issue the read,
and fail on parse error, read error, empty results, or a first result
whose status is not `ua.StatusOK`; `none` means the Go function returned
`nil` (after printing the value and timestamps). -/
def readNodeValue (env : Env) (client : Client) (nodeIDStr : String) :
    Option Err :=
  match env.parseNodeID nodeIDStr with
  | .error e => some (wrapErr "解析节点ID失败" e)
  | .ok nodeID =>
    match env.read client (readNodeValueReq nodeID) with
    | .error e => some (wrapErr "读取请求失败" e)
    | .ok resp =>
      match resp.results with
      | [] => some ⟨"没有读取结果"⟩
      | r :: _ =>
        if r.status ≠ StatusOK then
          some ⟨"读取状态错误: " ++ toString r.status⟩
        else
          none

/-- An observable step of the basic example's `main` (lines 25–65).
`fatalExit n` is the `log.Fatalf` after connection `n` failed
(`os.Exit`, so deferred closes do not run); `readFailLogged n` is the
`log.Printf` after a failed read from device `n`. -/
inductive MainEvent where
  | connectAttempt (n : Nat)
  | fatalExit (n : Nat)
  | readAttempt (n : Nat)
  | readFailLogged (n : Nat)
  | closeClient (n : Nat)
deriving DecidableEq, Repr

/-- The trace of `main` (lines 25–65): connect client 1 via
`localAddr1`, connect client 2 via `localAddr2` (fatal exit on either
failure), then read the node from device 1 and device 2, logging read
failures, and finally run the deferred closes (client 2 then
client 1). -/
def mainRun (env : Env) (endpoint1 endpoint2 localAddr1 localAddr2 nodeID : String) :
    List MainEvent :=
  match connectWithLocalAddr env endpoint1 localAddr1 with
  | .error _ => [.connectAttempt 1, .fatalExit 1]
  | .ok client1 =>
    match connectWithLocalAddr env endpoint2 localAddr2 with
    | .error _ => [.connectAttempt 1, .connectAttempt 2, .fatalExit 2]
    | .ok client2 =>
      [MainEvent.connectAttempt 1, .connectAttempt 2, .readAttempt 1]
      ++ (match readNodeValue env client1 nodeID with
          | some _ => [MainEvent.readFailLogged 1]
          | none => [])
      ++ [MainEvent.readAttempt 2]
      ++ (match readNodeValue env client2 nodeID with
          | some _ => [MainEvent.readFailLogged 2]
          | none => [])
      ++ [MainEvent.closeClient 2, .closeClient 1]

/-! ### The advanced example: `DeviceConnection` and `MultiInterfaceManager` -/

/-- `DeviceConnection` (lines 201–209).  The `sync.RWMutex` field has no
data content; the locking discipline of the accessors is modelled
separately by `managerFieldAccesses`. -/
structure DeviceConnection where
  name : String
  endpoint : String
  localAddr : String
  client : Option Client
  connected : Bool
  lastError : Option Err
deriving DecidableEq, Repr

/-- The device struct literal built by `AddDevice` (lines 229–236):
only `Name`, `Endpoint`, `LocalAddr` are set, the rest are Go zero
values. -/
def addDevice (name endpoint localAddr : String) : DeviceConnection :=
  { name := name,
    endpoint := endpoint,
    localAddr := localAddr,
    client := none,
    connected := false,
    lastError := none }

/-- The option list built by `connectDevice` (lines 251–258); unlike
`connectOpts` it also sets a 10-second dial timeout. -/
def connectDeviceOpts (localAddr : String) : List ClientOpt :=
  [ClientOpt.securityPolicy SecurityPolicyURINone,
   ClientOpt.securityModeString "None",
   ClientOpt.localAddr localAddr,
   ClientOpt.autoReconnect true,
   ClientOpt.reconnectInterval 5,
   ClientOpt.dialTimeout 10]

/-- `connectDevice` (lines 250–278): create and connect a client for
the device; on success store the client, set `Connected`, clear
`LastError` (under the write lock) and return `nil`; on failure return
the wrapped error with the device untouched. -/
def connectDevice (env : Env) (d : DeviceConnection) :
    Except Err DeviceConnection :=
  match env.newClient d.endpoint (connectDeviceOpts d.localAddr) with
  | .error e => .error (wrapErr "创建客户端失败" e)
  | .ok client =>
    match env.connect client with
    | .error e => .error (wrapErr "连接失败" e)
    | .ok _ =>
      .ok { d with client := some client, connected := true, lastError := none }

/-- `setError` (lines 281–286): mark the device disconnected and record
the error (under the write lock). -/
def setError (d : DeviceConnection) (err : Err) : DeviceConnection :=
  { d with connected := false, lastError := some err }

/-- `IsConnected` (lines 289–293). -/
def isConnected (d : DeviceConnection) : Bool :=
  d.connected

/-- `GetClient` (lines 296–300). -/
def getClient (d : DeviceConnection) : Option Client :=
  d.client

/-- One iteration of the `ConnectAll` loop body (lines 240–245): on
failure the error is logged and recorded with `setError`. -/
def connectOne (env : Env) (d : DeviceConnection) : DeviceConnection :=
  match connectDevice env d with
  | .ok d2 => d2
  | .error e => setError d e

/-- `ConnectAll` (lines 239–247): attempt every registered device in
order and return the updated device list together with the function's
return value. -/
def connectAll (env : Env) : List DeviceConnection → List DeviceConnection × Option Err
  | [] => ([], none)
  | d :: rest =>
    let d2 := connectOne env d
    let tail := connectAll env rest
    (d2 :: tail.1, none)

/-- The `ua.ReadRequest` built by `healthCheck` (lines 344–348): node
`ns=0;i=2256` (`Server_ServerStatus`), all other fields at their Go
zero values. -/
def healthCheckReq : ReadRequest :=
  { maxAge := 0,
    nodesToRead := [NodeID.numeric 0 2256],
    timestampsToReturn := 0 }

/-- `healthCheck` (lines 340–361): read the `Server_ServerStatus` node
and fail on a read error, an empty result list, or a first result whose
status is not `ua.StatusOK`; `none` means success. -/
def healthCheck (env : Env) (client : Client) : Option Err :=
  match env.read client healthCheckReq with
  | .error e => some e
  | .ok resp =>
    match resp.results with
    | [] => some ⟨"服务器状态读取失败"⟩
    | r :: _ =>
      if r.status ≠ StatusOK then some ⟨"服务器状态读取失败"⟩ else none

/-- What the `select` of `monitorDevice` delivers in one iteration:
the context's done channel firing, or a ticker tick.  Because other
goroutines may mutate the device between the two locked reads, a tick
carries the device snapshot seen by `IsConnected` and the one seen by
`GetClient`. -/
inductive MonitorEvent where
  | ctxDone
  | tick (atIsConnected atGetClient : DeviceConnection)
deriving DecidableEq, Repr

/-- What one iteration of `monitorDevice` does. -/
inductive MonitorAction where
  | exit
  | skipNotConnected
  | skipNilClient
  | healthCheckCall (c : Client)
deriving DecidableEq, Repr

/-- One iteration of the `monitorDevice` loop body (lines 317–336). -/
def monitorStep : MonitorEvent → MonitorAction
  | .ctxDone => .exit
  | .tick d1 d2 =>
    if ¬ isConnected d1 then .skipNotConnected
    else
      match getClient d2 with
      | none => .skipNilClient
      | some c => .healthCheckCall c

/-- The `monitorDevice` loop (lines 311–337) over a finite prefix of
delivered events: it performs one action per event and stops only at
`exit`; a health-check failure is only logged, so the action taken on a
tick never ends the run. -/
def monitorRun : List MonitorEvent → List MonitorAction
  | [] => []
  | ev :: rest =>
    match monitorStep ev with
    | .exit => [.exit]
    | a => a :: monitorRun rest

/-! ### Shutdown model for `StartMonitoring` / `Close`

`StartMonitoring` (lines 303–308) adds one `wg` count and one goroutine
per device; `Close` (lines 364–373) cancels the context, waits on the
`WaitGroup`, and then closes the remaining clients.  The interleaving of
the monitor goroutines with `Close` is a transition system over
`SysState`. -/

/-- How far `Close` has progressed. -/
inductive ClosePhase where
  | idle
  | cancelled
  | waited
  | closed
deriving DecidableEq, Repr

/-- Shared state of the manager's goroutines: whether `m.cancel()` has
run, how many monitor goroutines have not yet called `wg.Done`, the
progress of `Close`, and whether the `device.Client.Close` loop has
run. -/
structure SysState where
  ctxCancelled : Bool
  running : Nat
  phase : ClosePhase
  clientsClosed : Bool
deriving DecidableEq, Repr

/-- State after `StartMonitoring` on a manager with `n` devices, before
`Close` is called. -/
def initSys (n : Nat) : SysState :=
  { ctxCancelled := false, running := n, phase := .idle, clientsClosed := false }

/-- Interleaved steps of the monitor goroutines and of `Close`:
a monitor ticks (no shared-state change), a monitor sees `ctx.Done()`
and returns (running `wg.Done()` via its defer), `Close` runs
`m.cancel()`, `Close`'s `wg.Wait()` returns — only possible once every
monitor has finished — and `Close` runs its client-closing loop. -/
inductive SysStep : SysState → SysState → Prop
  | monitorTick (s : SysState) (h : 0 < s.running) : SysStep s s
  | monitorExit (s : SysState) (hc : s.ctxCancelled = true) (h : 0 < s.running) :
      SysStep s { s with running := s.running - 1 }
  | closeCancel (s : SysState) (h : s.phase = .idle) :
      SysStep s { s with ctxCancelled := true, phase := .cancelled }
  | closeWait (s : SysState) (h : s.phase = .cancelled) (hr : s.running = 0) :
      SysStep s { s with phase := .waited }
  | closeClients (s : SysState) (h : s.phase = .waited) :
      SysStep s { s with phase := .closed, clientsClosed := true }

/-- States reachable from `initSys n` by interleaved steps. -/
inductive SysReach (n : Nat) : SysState → Prop
  | init : SysReach n (initSys n)
  | step {s t : SysState} : SysReach n s → SysStep s t → SysReach n t

/-- The devices whose clients `Close` closes (lines 368–372): every
registered device whose `Client` field is non-nil, in registration
order. -/
def closeClientNames (ds : List DeviceConnection) : List String :=
  (ds.filter (fun d => d.client.isSome)).map (fun d => d.name)

/-! ### Locking discipline

Every access the manager's code makes to the `Connected`, `LastError`
and `Client` fields of a `DeviceConnection`, with the lock state the
source holds at that point. -/

/-- The three state fields of `DeviceConnection` the mutex protects. -/
inductive DevField where
  | connected
  | lastError
  | client
deriving DecidableEq, Repr

/-- Lock held at an access: nothing, `mu.RLock`, or `mu.Lock`. -/
inductive LockHeld where
  | unlocked
  | rlock
  | wlock
deriving DecidableEq, Repr

/-- One field access in the source. -/
structure FieldAccess where
  fn : String
  field : DevField
  isWrite : Bool
  lock : LockHeld
deriving DecidableEq, Repr

/-- Every read and write of `Connected`, `LastError`, `Client` in the
manager's code: `connectDevice` lines 270–272 (between `mu.Lock` and
`mu.Unlock`), `setError` lines 283–284 (same), `IsConnected` line 292
(between `mu.RLock` and the deferred `mu.RUnlock`), `GetClient`
line 299 (same), and `Close` lines 369–370, which read `device.Client`
with no lock held. -/
def managerFieldAccesses : List FieldAccess :=
  [⟨"connectDevice", .client, true, .wlock⟩,
   ⟨"connectDevice", .connected, true, .wlock⟩,
   ⟨"connectDevice", .lastError, true, .wlock⟩,
   ⟨"setError", .connected, true, .wlock⟩,
   ⟨"setError", .lastError, true, .wlock⟩,
   ⟨"IsConnected", .connected, false, .rlock⟩,
   ⟨"GetClient", .client, false, .rlock⟩,
   ⟨"Close", .client, false, .unlocked⟩,
   ⟨"Close", .client, false, .unlocked⟩]

/-- An access respects the discipline claimed by the spec: writes hold
the write lock, reads hold at least a read lock. -/
def accessLocked (a : FieldAccess) : Bool :=
  if a.isWrite then a.lock == .wlock else a.lock != .unlocked

/-! ### Device states reachable through the manager's operations -/

/-- The device states produced by `AddDevice` and modified only through
`connectDevice`, `setError` and the `ConnectAll` failure path (the
monitoring loop never writes the device). -/
inductive DevReach : DeviceConnection → Prop
  | fresh (name endpoint localAddr : String) :
      DevReach (addDevice name endpoint localAddr)
  | connectOk {d d2 : DeviceConnection} (env : Env) :
      DevReach d → connectDevice env d = .ok d2 → DevReach d2
  | errSet {d : DeviceConnection} (e : Err) :
      DevReach d → DevReach (setError d e)

/-! ### `GetAvailableInterfaces` -/

/-- An IP address as tested by the filter: `IsLoopback()`,
`To4() != nil`, and `String()`. -/
structure IP where
  loopback : Bool
  ipv4 : Bool
  repr : String
deriving DecidableEq, Repr

/-- A `net.Addr` returned by `Interface.Addrs()`: either a `*net.IPNet`
(the type assertion succeeds) or some other address type. -/
inductive NetAddr where
  | ipnet (ip : IP)
  | otherAddr
deriving DecidableEq, Repr

/-- A `net.Interface`: its up-flag and the outcome of its `Addrs()`
call. -/
structure Iface where
  up : Bool
  addrs : Except Err (List NetAddr)
deriving Repr

/-- The inner loop of `GetAvailableInterfaces` (lines 393–399): keep
the string of every `*net.IPNet` address that is not loopback and is
IPv4. -/
def collectAddrs (as : List NetAddr) : List String :=
  as.filterMap fun a =>
    match a with
    | .ipnet ip => if ¬ ip.loopback ∧ ip.ipv4 then some ip.repr else none
    | .otherAddr => none

/-- The per-interface contribution (lines 383–400): a down interface is
skipped, an interface whose `Addrs()` fails is skipped, otherwise its
filtered addresses are kept. -/
def ifaceAddrs (i : Iface) : List String :=
  if ¬ i.up then []
  else
    match i.addrs with
    | .error _ => []
    | .ok as => collectAddrs as

/-- `GetAvailableInterfaces` (lines 376–402), as a function of the
outcome of `net.Interfaces()`. -/
def getAvailableInterfaces (interfaces : Except Err (List Iface)) :
    Except Err (List String) :=
  match interfaces with
  | .error e => .error e
  | .ok ifs => .ok (ifs.flatMap ifaceAddrs)

/-! ### Concrete environments used by the witnesses -/

/-- An environment in which every library call succeeds. -/
def okEnv : Env :=
  { newClient := fun _ _ => .ok ⟨7⟩,
    connect := fun _ => .ok (),
    read := fun _ _ => .ok ⟨[⟨0, "v", 11, 12⟩]⟩,
    parseNodeID := fun s => .ok (.other s) }

/-- An environment in which `opcua.NewClient` fails. -/
def newClientFailEnv : Env :=
  { okEnv with newClient := fun _ _ => .error ⟨"bad"⟩ }

/-- An environment in which `Client.Connect` fails. -/
def connectFailEnv : Env :=
  { okEnv with connect := fun _ => .error ⟨"refused"⟩ }

/-! ### Claims -/

/-- C1: `connectWithLocalAddr` builds the option list containing
`LocalAddr(localAddr)` together with security policy None, security
mode None, auto-reconnect and a 5-second reconnect interval, and hands
exactly that list to `opcua.NewClient` before `Connect`; an error from
`NewClient` or from `Connect` makes it return no client together with
the wrapped, non-nil error, and a returned client is exactly the one
`NewClient` produced, after a successful `Connect`. -/
theorem connectWithLocalAddr_spec (env : Env) (endpoint localAddr : String) :
    (ClientOpt.localAddr localAddr ∈ connectOpts localAddr ∧
     ClientOpt.securityPolicy SecurityPolicyURINone ∈ connectOpts localAddr ∧
     ClientOpt.securityModeString "None" ∈ connectOpts localAddr ∧
     ClientOpt.autoReconnect true ∈ connectOpts localAddr ∧
     ClientOpt.reconnectInterval 5 ∈ connectOpts localAddr) ∧
    (∀ e, env.newClient endpoint (connectOpts localAddr) = .error e →
      connectWithLocalAddr env endpoint localAddr =
        .error (wrapErr "创建客户端失败" e)) ∧
    (∀ c e, env.newClient endpoint (connectOpts localAddr) = .ok c →
      env.connect c = .error e →
      connectWithLocalAddr env endpoint localAddr =
        .error (wrapErr "连接服务器失败" e)) ∧
    (∀ c, connectWithLocalAddr env endpoint localAddr = .ok c →
      env.newClient endpoint (connectOpts localAddr) = .ok c ∧
      env.connect c = .ok ()) := by
  refine ⟨⟨?_, ?_, ?_, ?_, ?_⟩, ?_, ?_, ?_⟩
  · simp [connectOpts]
  · simp [connectOpts]
  · simp [connectOpts]
  · simp [connectOpts]
  · simp [connectOpts]
  · intro e he
    simp [connectWithLocalAddr, he]
  · intro c e hc he
    simp [connectWithLocalAddr, hc, he]
  · intro c hc
    unfold connectWithLocalAddr at hc
    cases hnc : env.newClient endpoint (connectOpts localAddr) with
    | error e =>
      rw [hnc] at hc
      exact absurd hc (by simp)
    | ok c0 =>
      rw [hnc] at hc
      simp only [] at hc
      cases hco : env.connect c0 with
      | error e =>
        simp [hco] at hc
      | ok u =>
        simp [hco] at hc
        subst hc
        cases u
        exact ⟨rfl, hco⟩

/-- Witness for C1 at a concrete failing environment. -/
theorem connectWithLocalAddr_spec_witness :
    connectWithLocalAddr newClientFailEnv "opc.tcp://192.168.100.1:4840"
        "192.168.100.10:0" =
      .error (wrapErr "创建客户端失败" ⟨"bad"⟩) :=
  (connectWithLocalAddr_spec newClientFailEnv "opc.tcp://192.168.100.1:4840"
      "192.168.100.10:0").2.1 ⟨"bad"⟩ rfl

/-- The device list returned by `connectAll` is the pointwise
`connectOne` image of the input list. -/
theorem connectAll_fst_eq_map (env : Env) (ds : List DeviceConnection) :
    (connectAll env ds).1 = ds.map (connectOne env) := by
  induction ds with
  | nil => rfl
  | cons d rest ih => simp [connectAll, ih]

/-- C9: `ConnectAll` always returns `nil`: every registered device is
attempted in order (the result list is the `connectOne` image of the
input, in order), a failed attempt is recorded on that device via
`setError` without stopping later attempts, and no error reaches the
caller. -/
theorem connectAll_spec (env : Env) (ds : List DeviceConnection) :
    (connectAll env ds).2 = none ∧
    (connectAll env ds).1 = ds.map (connectOne env) ∧
    (connectAll env ds).1.length = ds.length := by
  refine ⟨?_, connectAll_fst_eq_map env ds, ?_⟩
  · cases ds <;> rfl
  · rw [connectAll_fst_eq_map]
    exact ds.length_map (connectOne env)

/-- C6: `readNodeValue` returns `nil` exactly when the node id parses,
the read succeeds, the response has at least one result, and the first
result's status is `ua.StatusOK`; every other outcome (parse failure,
read error, empty results, bad status) yields a non-nil error. -/
theorem readNodeValue_spec (env : Env) (client : Client) (s : String) :
    readNodeValue env client s = none ↔
      ∃ nodeID resp r rest,
        env.parseNodeID s = .ok nodeID ∧
        env.read client (readNodeValueReq nodeID) = .ok resp ∧
        resp.results = r :: rest ∧
        r.status = StatusOK := by
  unfold readNodeValue
  cases hp : env.parseNodeID s with
  | error e => simp [hp]
  | ok nodeID =>
    cases hr : env.read client (readNodeValueReq nodeID) with
    | error e => simp [hp, hr]
    | ok resp =>
      cases hres : resp.results with
      | nil => simp [hp, hr, hres]
      | cons r rest =>
        by_cases hst : r.status = StatusOK
        · simp [hp, hr, hres, hst]
        · simp [hp, hr, hres, hst]

/-- C2: connection state is tracked per device: when `connectDevice`
returns `nil` the device's `Connected` field is true, its `Client`
field holds exactly the client `NewClient` created, and `LastError` is
nil; and when `ConnectAll` handles a failed attempt for the device at
position `i`, that device ends up with `Connected` false and
`LastError` holding the returned error. -/
theorem connectDevice_state (env : Env) (d : DeviceConnection) :
    (∀ d2, connectDevice env d = .ok d2 →
      d2.connected = true ∧ d2.lastError = none ∧
      ∃ c, env.newClient d.endpoint (connectDeviceOpts d.localAddr) = .ok c ∧
        env.connect c = .ok () ∧ d2.client = some c) ∧
    (∀ ds : List DeviceConnection, ∀ i : Nat, ∀ e : Err,
      ds[i]? = some d → connectDevice env d = .error e →
      (connectAll env ds).1[i]? = some (setError d e) ∧
      (setError d e).connected = false ∧ (setError d e).lastError = some e) := by
  constructor
  · intro d2 h2
    unfold connectDevice at h2
    cases hnc : env.newClient d.endpoint (connectDeviceOpts d.localAddr) with
    | error e =>
      rw [hnc] at h2
      exact absurd h2 (by simp)
    | ok c =>
      rw [hnc] at h2
      simp only [] at h2
      cases hco : env.connect c with
      | error e => simp [hco] at h2
      | ok u =>
        simp [hco] at h2
        cases u
        subst h2
        exact ⟨rfl, rfl, c, rfl, hco, rfl⟩
  · intro ds i e hi he
    refine ⟨?_, rfl, rfl⟩
    rw [connectAll_fst_eq_map, List.getElem?_map, hi]
    simp [connectOne, he]

/-- Witness for C2: in an environment whose connect call fails, the
failed device recorded by `ConnectAll` is disconnected with the error
stored. -/
theorem connectDevice_state_witness :
    (connectAll connectFailEnv [addDevice "设备A" "opc.tcp://192.168.100.1:4840"
        "192.168.100.10:0"]).1[0]? =
      some (setError (addDevice "设备A" "opc.tcp://192.168.100.1:4840"
        "192.168.100.10:0") (wrapErr "连接失败" ⟨"refused"⟩)) ∧
    (setError (addDevice "设备A" "opc.tcp://192.168.100.1:4840"
        "192.168.100.10:0") (wrapErr "连接失败" ⟨"refused"⟩)).connected = false ∧
    (setError (addDevice "设备A" "opc.tcp://192.168.100.1:4840"
        "192.168.100.10:0") (wrapErr "连接失败" ⟨"refused"⟩)).lastError =
      some (wrapErr "连接失败" ⟨"refused"⟩) :=
  (connectDevice_state connectFailEnv
      (addDevice "设备A" "opc.tcp://192.168.100.1:4840" "192.168.100.10:0")).2
    [addDevice "设备A" "opc.tcp://192.168.100.1:4840" "192.168.100.10:0"] 0
    (wrapErr "连接失败" ⟨"refused"⟩) rfl rfl

/-- C8 helper: the state invariant of a device. -/
def deviceInv (d : DeviceConnection) : Prop :=
  d.connected = true → d.client.isSome ∧ d.lastError = none

/-- C8: every device state reachable through `AddDevice`,
`connectDevice`, `setError` and the `ConnectAll` failure path satisfies
the invariant: `Connected = true` implies the client is non-nil and
`LastError` is nil; and a freshly added device has `Connected` false,
`Client` nil and `LastError` nil. -/
theorem devReach_invariant (d : DeviceConnection) (h : DevReach d)
    (name endpoint localAddr : String) :
    deviceInv d ∧
    (addDevice name endpoint localAddr).connected = false ∧
    (addDevice name endpoint localAddr).client = none ∧
    (addDevice name endpoint localAddr).lastError = none := by
  refine ⟨?_, rfl, rfl, rfl⟩
  induction h with
  | fresh name endpoint localAddr =>
    intro hc
    exact absurd hc (by simp [addDevice])
  | @connectOk d0 d2 env h0 hok ih =>
    intro _
    unfold connectDevice at hok
    cases hnc : env.newClient d0.endpoint (connectDeviceOpts d0.localAddr) with
    | error e =>
      rw [hnc] at hok
      exact absurd hok (by simp)
    | ok c =>
      rw [hnc] at hok
      simp only [] at hok
      cases hco : env.connect c with
      | error e => simp [hco] at hok
      | ok u =>
        simp [hco] at hok
        subst hok
        exact ⟨rfl, rfl⟩
  | errSet e h0 ih =>
    intro hc
    exact absurd hc (by simp [setError])

/-- Witness for C8 at a freshly added device. -/
theorem devReach_invariant_witness :
    deviceInv (addDevice "设备A" "opc.tcp://192.168.100.1:4840"
        "192.168.100.10:0") ∧
    (addDevice "设备A" "opc.tcp://192.168.100.1:4840"
        "192.168.100.10:0").connected = false ∧
    (addDevice "设备A" "opc.tcp://192.168.100.1:4840"
        "192.168.100.10:0").client = none ∧
    (addDevice "设备A" "opc.tcp://192.168.100.1:4840"
        "192.168.100.10:0").lastError = none :=
  devReach_invariant _
    (DevReach.fresh "设备A" "opc.tcp://192.168.100.1:4840" "192.168.100.10:0")
    "设备A" "opc.tcp://192.168.100.1:4840" "192.168.100.10:0"

/-- `monitorStep` exits exactly on the context's done signal. -/
theorem monitorStep_eq_exit_iff (ev : MonitorEvent) :
    monitorStep ev = MonitorAction.exit ↔ ev = MonitorEvent.ctxDone := by
  cases ev with
  | ctxDone => simp [monitorStep]
  | tick d1 d2 =>
    constructor
    · intro h
      simp only [monitorStep] at h
      by_cases hc : isConnected d1
      · rw [if_neg (by simpa using hc)] at h
        cases hg : getClient d2 with
        | none => rw [hg] at h; cases h
        | some c => rw [hg] at h; cases h
      · rw [if_pos (by simpa using hc)] at h
        cases h
    · intro h
      cases h

/-- A health-check action can only come from a tick whose first
snapshot is connected and whose second snapshot carries that client. -/
theorem monitorStep_healthCheckCall {ev : MonitorEvent} {c : Client}
    (h : monitorStep ev = MonitorAction.healthCheckCall c) :
    ∃ d1 d2, ev = MonitorEvent.tick d1 d2 ∧ isConnected d1 = true ∧
      getClient d2 = some c := by
  cases ev with
  | ctxDone => simp [monitorStep] at h
  | tick d1 d2 =>
    simp only [monitorStep] at h
    by_cases hc : isConnected d1
    · rw [if_neg (by simpa using hc)] at h
      cases hg : getClient d2 with
      | none => rw [hg] at h; cases h
      | some c2 =>
        rw [hg] at h
        injection h with h2
        subst h2
        exact ⟨d1, d2, rfl, by simpa using hc, hg⟩
    · rw [if_pos (by simpa using hc)] at h
      cases h

/-- Health-check calls in a run come from qualifying ticks. -/
theorem monitorRun_healthCheck_mem (evs : List MonitorEvent) (c : Client)
    (h : MonitorAction.healthCheckCall c ∈ monitorRun evs) :
    ∃ d1 d2, MonitorEvent.tick d1 d2 ∈ evs ∧ isConnected d1 = true ∧
      getClient d2 = some c := by
  induction evs with
  | nil => simp [monitorRun] at h
  | cons ev rest ih =>
    unfold monitorRun at h
    cases hstep : monitorStep ev with
    | exit =>
      rw [hstep] at h
      simp at h
    | skipNotConnected =>
      rw [hstep] at h
      rcases List.mem_cons.mp h with h1 | h2
      · cases h1
      · obtain ⟨d1, d2, hm, hc2, hg⟩ := ih h2
        exact ⟨d1, d2, List.mem_cons_of_mem ev hm, hc2, hg⟩
    | skipNilClient =>
      rw [hstep] at h
      rcases List.mem_cons.mp h with h1 | h2
      · cases h1
      · obtain ⟨d1, d2, hm, hc2, hg⟩ := ih h2
        exact ⟨d1, d2, List.mem_cons_of_mem ev hm, hc2, hg⟩
    | healthCheckCall c2 =>
      rw [hstep] at h
      rcases List.mem_cons.mp h with h1 | h2
      · injection h1 with hc2
        subst hc2
        obtain ⟨d1, d2, hev, hcc, hg⟩ := monitorStep_healthCheckCall hstep
        exact ⟨d1, d2, List.mem_cons.mpr (Or.inl hev.symm), hcc, hg⟩
      · obtain ⟨d1, d2, hm, hc3, hg⟩ := ih h2
        exact ⟨d1, d2, List.mem_cons_of_mem ev hm, hc3, hg⟩

/-- A run reports an exit exactly when the event prefix contains the
done signal. -/
theorem monitorRun_exit_iff (evs : List MonitorEvent) :
    MonitorAction.exit ∈ monitorRun evs ↔ MonitorEvent.ctxDone ∈ evs := by
  induction evs with
  | nil => simp [monitorRun]
  | cons ev rest ih =>
    unfold monitorRun
    cases hstep : monitorStep ev with
    | exit =>
      have hev : ev = MonitorEvent.ctxDone := (monitorStep_eq_exit_iff ev).1 hstep
      subst hev
      simp
    | skipNotConnected =>
      have hev : MonitorEvent.ctxDone ≠ ev := by
        intro he
        rw [← he] at hstep
        cases hstep
      simp [List.mem_cons, ih, hev]
    | skipNilClient =>
      have hev : MonitorEvent.ctxDone ≠ ev := by
        intro he
        rw [← he] at hstep
        cases hstep
      simp [List.mem_cons, ih, hev]
    | healthCheckCall c2 =>
      have hev : MonitorEvent.ctxDone ≠ ev := by
        intro he
        rw [← he] at hstep
        cases hstep
      simp [List.mem_cons, ih, hev]

/-- Without a done signal the loop handles every event: no action,
including a failed health check, stops it. -/
theorem monitorRun_no_done (evs : List MonitorEvent)
    (h : MonitorEvent.ctxDone ∉ evs) :
    monitorRun evs = evs.map monitorStep := by
  induction evs with
  | nil => rfl
  | cons ev rest ih =>
    have hev : ev ≠ MonitorEvent.ctxDone := by
      intro he
      exact h (List.mem_cons.mpr (Or.inl he.symm))
    have hrest : MonitorEvent.ctxDone ∉ rest := fun hr =>
      h (List.mem_cons_of_mem ev hr)
    have hstep : monitorStep ev ≠ MonitorAction.exit := fun hs =>
      hev ((monitorStep_eq_exit_iff ev).1 hs)
    unfold monitorRun
    cases hs : monitorStep ev with
    | exit => exact absurd hs hstep
    | skipNotConnected => simp [hs, ih hrest]
    | skipNilClient => simp [hs, ih hrest]
    | healthCheckCall c2 => simp [hs, ih hrest]

/-- C3: in the monitor loop, a health check is issued on a tick only
when the `Connected` flag read under the lock is true and the client
read under the lock is non-nil; ticks observing a disconnected device
or a nil client never produce a health-check call; the loop exits
exactly when the context's done signal arrives (so a failed health
check never stops it — without a done signal every delivered event is
handled); and the health check reads the `Server_ServerStatus` node
`ns=0;i=2256`. -/
theorem monitorDevice_spec (evs : List MonitorEvent) :
    (∀ c : Client, MonitorAction.healthCheckCall c ∈ monitorRun evs →
      ∃ d1 d2, MonitorEvent.tick d1 d2 ∈ evs ∧ isConnected d1 = true ∧
        getClient d2 = some c) ∧
    (∀ d1 d2 : DeviceConnection, ∀ c : Client,
      isConnected d1 = false ∨ getClient d2 = none →
      monitorStep (MonitorEvent.tick d1 d2) ≠ MonitorAction.healthCheckCall c) ∧
    (MonitorAction.exit ∈ monitorRun evs ↔ MonitorEvent.ctxDone ∈ evs) ∧
    (MonitorEvent.ctxDone ∉ evs → monitorRun evs = evs.map monitorStep) ∧
    healthCheckReq.nodesToRead = [NodeID.numeric 0 2256] := by
  refine ⟨monitorRun_healthCheck_mem evs, ?_, monitorRun_exit_iff evs,
    monitorRun_no_done evs, rfl⟩
  intro d1 d2 c hbad hstep
  obtain ⟨d1b, d2b, hev, hcc, hg⟩ := monitorStep_healthCheckCall hstep
  injection hev with h1 h2
  subst h1
  subst h2
  rcases hbad with hb | hb
  · rw [hcc] at hb
    cases hb
  · rw [hg] at hb
    cases hb

/-- A connected device snapshot with a stored client. -/
def devConnected : DeviceConnection :=
  { name := "设备A",
    endpoint := "opc.tcp://192.168.100.1:4840",
    localAddr := "192.168.100.10:0",
    client := some ⟨7⟩,
    connected := true,
    lastError := none }

/-- Witness for C3 at a one-tick event list on a connected device. -/
theorem monitorDevice_spec_witness :
    (∃ d1 d2,
      MonitorEvent.tick d1 d2 ∈ [MonitorEvent.tick devConnected devConnected] ∧
      isConnected d1 = true ∧ getClient d2 = some ⟨7⟩) ∧
    monitorRun [MonitorEvent.tick devConnected devConnected] =
      [MonitorEvent.tick devConnected devConnected].map monitorStep :=
  ⟨(monitorDevice_spec [MonitorEvent.tick devConnected devConnected]).1 ⟨7⟩
      (by decide),
   (monitorDevice_spec [MonitorEvent.tick devConnected devConnected]).2.2.2.1
      (by decide)⟩

/-- The shutdown invariant: once `wg.Wait` has returned (or `Close` has
finished) no monitor is running and the context is cancelled; the
client-closing loop only runs at the very end; any progress of `Close`
implies the context was cancelled first. -/
def sysInv (s : SysState) : Prop :=
  ((s.phase = ClosePhase.waited ∨ s.phase = ClosePhase.closed) →
    s.running = 0 ∧ s.ctxCancelled = true) ∧
  (s.clientsClosed = true → s.phase = ClosePhase.closed) ∧
  (s.phase ≠ ClosePhase.idle → s.ctxCancelled = true)

/-- Every reachable state of the shutdown protocol satisfies `sysInv`. -/
theorem sysReach_inv {n : Nat} {s : SysState} (h : SysReach n s) : sysInv s := by
  induction h with
  | init =>
    refine ⟨?_, ?_, ?_⟩ <;> simp [initSys]
  | step h0 hstep ih =>
    cases hstep with
    | monitorTick hr => exact ih
    | monitorExit hc hr =>
      refine ⟨?_, ?_, ?_⟩
      · intro hp
        have h1 := (ih.1 hp).1
        omega
      · intro hcc
        exact ih.2.1 hcc
      · intro hp
        exact ih.2.2 hp
    | closeCancel hp0 =>
      refine ⟨?_, ?_, ?_⟩
      · intro hp
        rcases hp with hp | hp <;> cases hp
      · intro hcc
        have hclosed := ih.2.1 hcc
        rw [hp0] at hclosed
        cases hclosed
      · intro _
        rfl
    | closeWait hp0 hr =>
      refine ⟨?_, ?_, ?_⟩
      · intro _
        refine ⟨hr, ?_⟩
        apply ih.2.2
        rw [hp0]
        intro hbad
        cases hbad
      · intro hcc
        have hclosed := ih.2.1 hcc
        rw [hp0] at hclosed
        cases hclosed
      · intro _
        apply ih.2.2
        rw [hp0]
        intro hbad
        cases hbad
    | closeClients hp0 =>
      have hw := ih.1 (Or.inl hp0)
      exact ⟨fun _ => hw, fun _ => rfl, fun _ => hw.2⟩

/-- C4: `Close` cancels the manager context, waits for every goroutine
started by `StartMonitoring` (the `wg.Wait` step is enabled only once
all of them have finished, and a monitor only finishes after the
cancellation), and only then closes clients: in every reachable state,
if the client-closing loop has run then `Close` has completed with no
monitor running and the context cancelled; once `Close` has returned no
monitoring goroutine is running; any progress past the start implies
the cancellation happened; and the closing loop touches exactly the
registered devices whose `Client` field is non-nil. -/
theorem close_shutdown_spec (n : Nat) (s : SysState) (h : SysReach n s)
    (ds : List DeviceConnection) (nm : String) :
    (s.clientsClosed = true →
      s.phase = ClosePhase.closed ∧ s.running = 0 ∧ s.ctxCancelled = true) ∧
    (s.phase = ClosePhase.closed → s.running = 0 ∧ s.ctxCancelled = true) ∧
    (s.phase ≠ ClosePhase.idle → s.ctxCancelled = true) ∧
    (nm ∈ closeClientNames ds ↔
      ∃ d ∈ ds, d.client.isSome = true ∧ d.name = nm) := by
  have hi := sysReach_inv h
  refine ⟨?_, ?_, hi.2.2, ?_⟩
  · intro hcc
    have hp := hi.2.1 hcc
    have hw := hi.1 (Or.inr hp)
    exact ⟨hp, hw.1, hw.2⟩
  · intro hp
    exact hi.1 (Or.inr hp)
  · constructor
    · intro hm
      obtain ⟨d, hd, hdn⟩ := List.mem_map.mp hm
      have hf := List.mem_filter.mp hd
      exact ⟨d, hf.1, hf.2, hdn⟩
    · rintro ⟨d, hd, hcl, hdn⟩
      exact List.mem_map.mpr ⟨d, List.mem_filter.mpr ⟨hd, hcl⟩, hdn⟩

/-- Witness for C4 along a concrete execution: one monitor, cancel,
monitor exit, wait, close. -/
theorem close_shutdown_spec_witness :
    (SysState.mk true 0 ClosePhase.closed true).running = 0 ∧
    (SysState.mk true 0 ClosePhase.closed true).ctxCancelled = true :=
  (close_shutdown_spec 1 ⟨true, 0, ClosePhase.closed, true⟩
      (SysReach.step
        (SysReach.step
          (SysReach.step
            (SysReach.step SysReach.init
              (SysStep.closeCancel (initSys 1) rfl))
            (SysStep.monitorExit ⟨true, 1, ClosePhase.cancelled, false⟩ rfl
              Nat.one_pos))
          (SysStep.closeWait ⟨true, 0, ClosePhase.cancelled, false⟩ rfl rfl))
        (SysStep.closeClients ⟨true, 0, ClosePhase.waited, false⟩ rfl))
      [] "x").2.1 rfl

/-- C5 fails on the code: `Close` reads the `Client` field with no lock
held, so not every access to the protected fields happens under the
device mutex. -/
theorem lockDiscipline_counterexample :
    ¬ ∀ a ∈ managerFieldAccesses, accessLocked a = true := by
  decide

/-- C5 (amended): every read and write of `Connected`, `LastError` and
`Client` in the manager's code holds the device mutex — write lock for
writes, read lock for reads — except in `Close`, whose accesses are
exactly lock-free reads of the `Client` field (performed after
`wg.Wait` has returned). -/
theorem lockDiscipline_amended :
    (∀ a ∈ managerFieldAccesses, a.fn ≠ "Close" → accessLocked a = true) ∧
    (∀ a ∈ managerFieldAccesses, a.fn = "Close" →
      a.field = DevField.client ∧ a.isWrite = false ∧
      a.lock = LockHeld.unlocked) := by
  constructor <;> decide

/-- Witness for the amended C5 at the `setError` write access. -/
theorem lockDiscipline_amended_witness :
    accessLocked ⟨"setError", DevField.connected, true, LockHeld.wlock⟩ = true :=
  lockDiscipline_amended.1 ⟨"setError", DevField.connected, true, LockHeld.wlock⟩
    (by decide) (by decide)

/-- C7: `main` connects client 1, then client 2, and reads only after
both connections succeed: a connect failure fatally exits before any
read (conjuncts 1, 2 and 4), and on the success path the trace is
connect 1, connect 2, read 1, read 2 — with a failed read from
device 1 only logged, after which the read from device 2 is still
attempted, and the logged-failure segments never contain a read
attempt. -/
theorem main_order_spec (env : Env)
    (endpoint1 endpoint2 localAddr1 localAddr2 nodeID : String) :
    ((∃ e, connectWithLocalAddr env endpoint1 localAddr1 = .error e) →
      mainRun env endpoint1 endpoint2 localAddr1 localAddr2 nodeID =
        [MainEvent.connectAttempt 1, MainEvent.fatalExit 1]) ∧
    (∀ c1 e, connectWithLocalAddr env endpoint1 localAddr1 = .ok c1 →
      connectWithLocalAddr env endpoint2 localAddr2 = .error e →
      mainRun env endpoint1 endpoint2 localAddr1 localAddr2 nodeID =
        [MainEvent.connectAttempt 1, MainEvent.connectAttempt 2,
         MainEvent.fatalExit 2]) ∧
    (∀ c1 c2, connectWithLocalAddr env endpoint1 localAddr1 = .ok c1 →
      connectWithLocalAddr env endpoint2 localAddr2 = .ok c2 →
      ∃ t1 t2 : List MainEvent,
        mainRun env endpoint1 endpoint2 localAddr1 localAddr2 nodeID =
          [MainEvent.connectAttempt 1, MainEvent.connectAttempt 2,
           MainEvent.readAttempt 1] ++ t1 ++ [MainEvent.readAttempt 2] ++ t2
          ++ [MainEvent.closeClient 2, MainEvent.closeClient 1] ∧
        (∀ n, MainEvent.readAttempt n ∉ t1 ∧ MainEvent.readAttempt n ∉ t2) ∧
        ((readNodeValue env c1 nodeID).isSome = true →
          t1 = [MainEvent.readFailLogged 1]) ∧
        (readNodeValue env c1 nodeID = none → t1 = [])) ∧
    (∀ n, MainEvent.readAttempt n ∈
        mainRun env endpoint1 endpoint2 localAddr1 localAddr2 nodeID →
      ∃ c1 c2, connectWithLocalAddr env endpoint1 localAddr1 = .ok c1 ∧
        connectWithLocalAddr env endpoint2 localAddr2 = .ok c2) := by
  refine ⟨?_, ?_, ?_, ?_⟩
  · rintro ⟨e, he⟩
    simp [mainRun, he]
  · intro c1 e h1 h2
    simp [mainRun, h1, h2]
  · intro c1 c2 h1 h2
    refine ⟨(match readNodeValue env c1 nodeID with
              | some _ => [MainEvent.readFailLogged 1]
              | none => []),
            (match readNodeValue env c2 nodeID with
              | some _ => [MainEvent.readFailLogged 2]
              | none => []), ?_, ?_, ?_, ?_⟩
    · simp [mainRun, h1, h2]
    · intro n
      constructor
      · cases readNodeValue env c1 nodeID <;> simp
      · cases readNodeValue env c2 nodeID <;> simp
    · intro hs
      cases hr : readNodeValue env c1 nodeID with
      | none => rw [hr] at hs; cases hs
      | some e => rfl
    · intro hn
      rw [hn]
  · intro n hn
    cases h1 : connectWithLocalAddr env endpoint1 localAddr1 with
    | error e =>
      unfold mainRun at hn
      rw [h1] at hn
      simp at hn
    | ok c1 =>
      cases h2 : connectWithLocalAddr env endpoint2 localAddr2 with
      | error e =>
        unfold mainRun at hn
        rw [h1] at hn
        simp only [] at hn
        rw [h2] at hn
        simp at hn
      | ok c2 => exact ⟨c1, c2, rfl, rfl⟩

/-- Witness for C7: with a failing `NewClient`, `main` exits before any
read. -/
theorem main_order_spec_witness :
    mainRun newClientFailEnv "opc.tcp://192.168.100.1:4840"
        "opc.tcp://192.168.100.1:4840" "192.168.100.10:0" "192.168.100.20:0"
        "i=2258" =
      [MainEvent.connectAttempt 1, MainEvent.fatalExit 1] :=
  (main_order_spec newClientFailEnv "opc.tcp://192.168.100.1:4840"
      "opc.tcp://192.168.100.1:4840" "192.168.100.10:0" "192.168.100.20:0"
      "i=2258").1 ⟨wrapErr "创建客户端失败" ⟨"bad"⟩, rfl⟩

/-- C10: `GetAvailableInterfaces` returns an error exactly when
`net.Interfaces()` itself fails (an `ok` enumeration always yields an
`ok` list); every returned string is the address of a non-loopback IPv4
`*net.IPNet` of an up interface; down interfaces and interfaces whose
`Addrs()` call fails contribute nothing; and the result is the
in-order concatenation of the per-interface contributions. -/
theorem getAvailableInterfaces_spec (e : Err) (ifs : List Iface) :
    getAvailableInterfaces (.error e) = .error e ∧
    getAvailableInterfaces (.ok ifs) = .ok (ifs.flatMap ifaceAddrs) ∧
    (∀ s, s ∈ ifs.flatMap ifaceAddrs →
      ∃ i ∈ ifs, i.up = true ∧ ∃ as ip, i.addrs = .ok as ∧
        NetAddr.ipnet ip ∈ as ∧ ip.loopback = false ∧ ip.ipv4 = true ∧
        ip.repr = s) ∧
    (∀ i : Iface, i.up = false → ifaceAddrs i = []) ∧
    (∀ i : Iface, ∀ e2, i.addrs = .error e2 → ifaceAddrs i = []) := by
  refine ⟨rfl, rfl, ?_, ?_, ?_⟩
  · intro s hs
    obtain ⟨i, hi, hsi⟩ := List.mem_flatMap.mp hs
    refine ⟨i, hi, ?_⟩
    unfold ifaceAddrs at hsi
    by_cases hup : i.up
    · rw [if_neg (by simpa using hup)] at hsi
      cases ha : i.addrs with
      | error e2 =>
        rw [ha] at hsi
        cases hsi
      | ok as =>
        rw [ha] at hsi
        refine ⟨by simpa using hup, as, ?_⟩
        obtain ⟨a, hain, hmap⟩ := List.mem_filterMap.mp hsi
        cases a with
        | otherAddr => cases hmap
        | ipnet ip =>
          simp only [] at hmap
          by_cases hcond : ¬ ip.loopback ∧ ip.ipv4
          · rw [if_pos hcond] at hmap
            injection hmap with hmap
            exact ⟨ip, rfl, hain, by simpa using hcond.1, by simpa using hcond.2,
              hmap⟩
          · rw [if_neg hcond] at hmap
            cases hmap
    · rw [if_pos (by simpa using hup)] at hsi
      cases hsi
  · intro i hup
    unfold ifaceAddrs
    rw [if_pos (by simp [hup])]
  · intro i e2 ha
    unfold ifaceAddrs
    by_cases hup : i.up
    · rw [if_neg (by simpa using hup), ha]
    · rw [if_pos (by simpa using hup)]

/-- Witness for C10 at a one-interface enumeration. -/
theorem getAvailableInterfaces_spec_witness :
    ∃ i ∈ [Iface.mk true (.ok [NetAddr.ipnet ⟨false, true, "192.168.100.10"⟩])],
      i.up = true ∧ ∃ as ip, i.addrs = .ok as ∧
        NetAddr.ipnet ip ∈ as ∧ ip.loopback = false ∧ ip.ipv4 = true ∧
        ip.repr = "192.168.100.10" :=
  (getAvailableInterfaces_spec ⟨"x"⟩
      [Iface.mk true (.ok [NetAddr.ipnet ⟨false, true, "192.168.100.10"⟩])]).2.2.1
    "192.168.100.10" (by decide)

end MultiInterface
